import Mathlib

/-!
Shallow embedding of `cura/Settings/CuraStackBuilder.py` (class
`CuraStackBuilder` with the factory class-methods `createMachine`,
`createGlobalStack`, `createExtruderStack`).

The side effects of the builder — registering containers with the shared
`ContainerRegistry` and emitting `Logger` warnings — are made explicit by
threading a `BuildState` through each function.  Exceptions raised while
configuring a layer propagate (Python semantics: effects performed before
the raise persist), so every function returns `BuildState × Except BuildError α`
rather than short-circuiting the state away.  A `trace` of configuration
events records the order in which setters and registrations happen, which is
what the temporal claims are about.
-/

namespace CuraStackBuilder

/-- A Python metadata value as stored in the metadata dictionary of a container:
the values this code reads and writes are `None`, strings, or integers (the
"position" entry of an extruder definition is an optional integer). -/
inductive MVal where
  | vNone : MVal
  | vStr (s : String) : MVal
  | vInt (n : Int) : MVal
deriving DecidableEq, Repr

/-- Python truthiness of a metadata value, as tested by `if not position:`. -/
def MVal.truthy : MVal → Bool
  | .vNone => false
  | .vStr s => !(s == "")
  | .vInt n => !(n == 0)

/-- A metadata dictionary: association list from keys to values. -/
abbrev MetaData := List (String × MVal)

/-- Embedding of `container.getMetaDataEntry(key, default)`: dictionary lookup with a
default value. -/
def getMetaDataEntry (md : MetaData) (key : String) (default : MVal) : MVal :=
  match md.find? (fun p => p.1 == key) with
  | some p => p.2
  | none => default

/-- A read-only definition container (machine or extruder definition) as the
builder sees it: an id, a display name, and a metadata dictionary (extruder
definitions carry a `"machine"` entry naming their parent machine and an
optional integer `"position"` entry). -/
structure DefinitionContainer where
  id : String
  name : String
  metadata : MetaData
deriving DecidableEq, Repr

/-- A mutable instance container: an id, a metadata dictionary, and the
definition attached via `setDefinition` (if any). -/
structure InstanceContainer where
  id : String
  metadata : MetaData
  definition : Option DefinitionContainer
deriving DecidableEq, Repr

/-- Whether a stack is a `GlobalStack` or an `ExtruderStack`. -/
inductive StackKind where
  | globalK : StackKind
  | extruderK : StackKind
deriving DecidableEq, Repr

/-- A container stack under construction.  Layers set by id
(definition-changes, variant, material, quality, quality-changes) are
recorded as the id that was set; `nextStack` records the id of the linked
next stack. -/
structure Stack where
  id : String
  kind : StackKind
  definition : Option DefinitionContainer
  metadata : MetaData
  userChanges : Option InstanceContainer
  definitionChanges : Option String
  variant : Option String
  material : Option String
  quality : Option String
  qualityChanges : Option String
  nextStack : Option String
deriving DecidableEq, Repr

/-- A container as stored in the registry: either a stack or an instance
container. -/
inductive Container where
  | stack (s : Stack) : Container
  | instc (c : InstanceContainer) : Container
deriving DecidableEq, Repr

/-- Configuration events, in the order the builder performs them.  Layer
setters and `setNextStack` record the id they were given; `register`
records the id passed to `ContainerRegistry.addContainer`. -/
inductive Event where
  | setNextStack (id : String) : Event
  | setDefinitionChanges (id : String) : Event
  | setVariant (id : String) : Event
  | setMaterial (id : String) : Event
  | setQuality (id : String) : Event
  | setQualityChanges (id : String) : Event
  | register (id : String) : Event
deriving DecidableEq, Repr

/-- The error raised when resolving/setting a named layer fails
(e.g. an unknown id): it carries the layer name and the offending id. -/
inductive BuildError where
  | unresolved (layer : String) (id : String) : BuildError
deriving DecidableEq, Repr

/-- The observable state threaded through the builder: the containers
registered so far (`ContainerRegistry.addContainer`), the warnings logged so
far (`Logger.log("w", ...)`), and the trace of configuration events. -/
structure BuildState where
  registry : List Container
  log : List String
  trace : List Event
deriving DecidableEq, Repr

/-- The external environment: the definition store of the registry, queried by
`findDefinitionContainers`, and — modelled from the spec, see `Env` fields —
which ids each layer setter can resolve. -/
structure Env where
  definitions : List DefinitionContainer
  resolveDefinitionChanges : String → Bool
  resolveVariant : String → Bool
  resolveMaterial : String → Bool
  resolveQuality : String → Bool
  resolveQualityChanges : String → Bool

/-- Embedding of `ContainerRegistry.addContainer(c)`: append the container to the
registry and record a `register` event. -/
def addContainer (st : BuildState) (c : Container) (cid : String) : BuildState :=
  { st with registry := st.registry ++ [c], trace := st.trace ++ [Event.register cid] }

/-- Embedding of `Logger.log("w", msg)`: append a warning to the log. -/
def logWarning (st : BuildState) (msg : String) : BuildState :=
  { st with log := st.log ++ [msg] }

/-- The keyword-argument bag accepted by `createGlobalStack` /
`createExtruderStack`: each recognized key is optional; `none` means the key
is absent from `kwargs` (`"variant" in kwargs` is false). -/
structure StackOptions where
  definition_changes : Option String
  variant : Option String
  material : Option String
  quality : Option String
  quality_changes : Option String
  next_stack : Option String
deriving DecidableEq, Repr

/-- Modelled from the spec: `CuraContainerStack.setDefinitionChangesById` is
not under `src/`; per the spec it sets the definition-changes layer by id,
and any failure while resolving the id propagates to the caller. -/
def setDefinitionChangesById (env : Env) (st : BuildState) (stack : Stack)
    (cid : String) : BuildState × Except BuildError Stack :=
  if env.resolveDefinitionChanges cid then
    ({ st with trace := st.trace ++ [Event.setDefinitionChanges cid] },
     .ok { stack with definitionChanges := some cid })
  else (st, .error (.unresolved "definition_changes" cid))

/-- Modelled from the spec: `CuraStackBuilder.__setStackVariant` is not under
`src/`; per the spec it resolves and sets the variant layer, and any failure
while resolving propagates to the caller. -/
def setStackVariant (env : Env) (st : BuildState) (stack : Stack)
    (cid : String) : BuildState × Except BuildError Stack :=
  if env.resolveVariant cid then
    ({ st with trace := st.trace ++ [Event.setVariant cid] },
     .ok { stack with variant := some cid })
  else (st, .error (.unresolved "variant" cid))

/-- Modelled from the spec: `CuraStackBuilder.__setStackMaterial` is not
under `src/`; per the spec it resolves and sets the material layer (after the
variant), and any failure while resolving propagates to the caller. -/
def setStackMaterial (env : Env) (st : BuildState) (stack : Stack)
    (cid : String) : BuildState × Except BuildError Stack :=
  if env.resolveMaterial cid then
    ({ st with trace := st.trace ++ [Event.setMaterial cid] },
     .ok { stack with material := some cid })
  else (st, .error (.unresolved "material" cid))

/-- Modelled from the spec: `CuraStackBuilder.__setStackQuality` is not under
`src/`; per the spec it resolves and sets the quality layer (after material
and variant), and any failure while resolving propagates to the caller. -/
def setStackQuality (env : Env) (st : BuildState) (stack : Stack)
    (cid : String) : BuildState × Except BuildError Stack :=
  if env.resolveQuality cid then
    ({ st with trace := st.trace ++ [Event.setQuality cid] },
     .ok { stack with quality := some cid })
  else (st, .error (.unresolved "quality" cid))

/-- Modelled from the spec: `CuraContainerStack.setQualityChangesById` is not
under `src/`; per the spec it sets the quality-changes layer by id, and any
failure while resolving the id propagates to the caller. -/
def setQualityChangesById (env : Env) (st : BuildState) (stack : Stack)
    (cid : String) : BuildState × Except BuildError Stack :=
  if env.resolveQualityChanges cid then
    ({ st with trace := st.trace ++ [Event.setQualityChanges cid] },
     .ok { stack with qualityChanges := some cid })
  else (st, .error (.unresolved "quality_changes" cid))

/-- Embedding of `if "definition_changes" in kwargs: stack.setDefinitionChangesById(...)`. -/
def stepDefinitionChanges (env : Env) (st : BuildState) (stack : Stack)
    (o : Option String) : BuildState × Except BuildError Stack :=
  match o with
  | none => (st, .ok stack)
  | some cid => setDefinitionChangesById env st stack cid

/-- Embedding of `if "variant" in kwargs: cls.__setStackVariant(stack, kwargs["variant"])`. -/
def stepVariant (env : Env) (st : BuildState) (stack : Stack)
    (o : Option String) : BuildState × Except BuildError Stack :=
  match o with
  | none => (st, .ok stack)
  | some cid => setStackVariant env st stack cid

/-- Embedding of `if "material" in kwargs: cls.__setStackMaterial(stack, kwargs["material"])`. -/
def stepMaterial (env : Env) (st : BuildState) (stack : Stack)
    (o : Option String) : BuildState × Except BuildError Stack :=
  match o with
  | none => (st, .ok stack)
  | some cid => setStackMaterial env st stack cid

/-- Embedding of `if "quality" in kwargs: cls.__setStackQuality(stack, kwargs["quality"])`. -/
def stepQuality (env : Env) (st : BuildState) (stack : Stack)
    (o : Option String) : BuildState × Except BuildError Stack :=
  match o with
  | none => (st, .ok stack)
  | some cid => setStackQuality env st stack cid

/-- Embedding of `if "quality_changes" in kwargs: stack.setQualityChangesById(...)`. -/
def stepQualityChanges (env : Env) (st : BuildState) (stack : Stack)
    (o : Option String) : BuildState × Except BuildError Stack :=
  match o with
  | none => (st, .ok stack)
  | some cid => setQualityChangesById env st stack cid

/-- The block of five `if "<key>" in kwargs:` statements that appears
verbatim, in this order, in both `createGlobalStack` and
`createExtruderStack` (the source comment there: "Important! The order here
matters ..."). -/
def applyStackOptions (env : Env) (st : BuildState) (stack : Stack)
    (opts : StackOptions) : BuildState × Except BuildError Stack :=
  match stepDefinitionChanges env st stack opts.definition_changes with
  | (st, .error e) => (st, .error e)
  | (st, .ok stack) =>
  match stepVariant env st stack opts.variant with
  | (st, .error e) => (st, .error e)
  | (st, .ok stack) =>
  match stepMaterial env st stack opts.material with
  | (st, .error e) => (st, .error e)
  | (st, .ok stack) =>
  match stepQuality env st stack opts.quality with
  | (st, .error e) => (st, .error e)
  | (st, .ok stack) =>
  match stepQualityChanges env st stack opts.quality_changes with
  | (st, .error e) => (st, .error e)
  | (st, .ok stack) => (st, .ok stack)

/-- Embedding of `GlobalStack(new_stack_id)` followed by `stack.setDefinition(definition)`:
a fresh global stack with no layers configured yet. -/
def freshGlobalStack (new_stack_id : String)
    (definition : DefinitionContainer) : Stack :=
  { id := new_stack_id, kind := .globalK, definition := some definition,
    metadata := [], userChanges := none, definitionChanges := none,
    variant := none, material := none, quality := none,
    qualityChanges := none, nextStack := none }

/-- The user-override container built by `createGlobalStack`: id
`<stack id>_user`, metadata `type=user` and `machine=<stack id>`, and the
machine definition attached via `setDefinition`. -/
def globalUserContainer (new_stack_id : String)
    (definition : DefinitionContainer) : InstanceContainer :=
  { id := new_stack_id ++ "_user",
    metadata := [("type", MVal.vStr "user"), ("machine", MVal.vStr new_stack_id)],
    definition := some definition }

/-- Embedding of `CuraStackBuilder.createGlobalStack(new_stack_id, definition, **kwargs)`:
construct a `GlobalStack`, attach the definition, build the user-override
container (metadata `type=user`, `machine=<stack id>`, same definition),
attach it as user-changes, apply the optional layers in the fixed order
definition-changes, variant, material, quality, quality-changes, and only
then register the stack and the user container. -/
def createGlobalStack (env : Env) (st : BuildState) (new_stack_id : String)
    (definition : DefinitionContainer) (opts : StackOptions) :
    BuildState × Except BuildError Stack :=
  let stack : Stack := freshGlobalStack new_stack_id definition
  let user_container : InstanceContainer := globalUserContainer new_stack_id definition
  let stack := { stack with userChanges := some user_container }
  match applyStackOptions env st stack opts with
  | (st, .error e) => (st, .error e)
  | (st, .ok stack) =>
    let st := addContainer st (Container.stack stack) stack.id
    let st := addContainer st (Container.instc user_container) user_container.id
    (st, .ok stack)

/-- Embedding of `ExtruderStack(new_stack_id)` followed by
`stack.setDefinition(definition)`: a fresh extruder stack with no layers
configured yet. -/
def freshExtruderStack (new_stack_id : String)
    (definition : DefinitionContainer) : Stack :=
  { id := new_stack_id, kind := .extruderK, definition := some definition,
    metadata := [], userChanges := none, definitionChanges := none,
    variant := none, material := none, quality := none,
    qualityChanges := none, nextStack := none }

/-- The user-override container built by `createExtruderStack`: id
`<stack id>_user`, metadata `type=user` and `extruder=<stack id>`.  Note:
unlike the global one, the source never calls `setDefinition` on it (and
never uses the `machine_definition` parameter its docstring says is "to use
for the user container"). -/
def extruderUserContainer (new_stack_id : String) : InstanceContainer :=
  { id := new_stack_id ++ "_user",
    metadata := [("type", MVal.vStr "user"), ("extruder", MVal.vStr new_stack_id)],
    definition := none }

/-- Embedding of `CuraStackBuilder.createExtruderStack(new_stack_id, definition,
machine_definition, **kwargs)`: construct an `ExtruderStack`, attach the
extruder definition, copy the `"position"` metadata entry of the definition onto
the stack, build the user-override container (metadata `type=user`,
`extruder=<stack id>`; note the body never attaches a definition to it and
never uses `machine_definition`), attach it as user-changes, link the next
stack if given, apply the optional layers in the fixed order, and only then
register the stack and the user container. -/
def createExtruderStack (env : Env) (st : BuildState) (new_stack_id : String)
    (definition : DefinitionContainer) (machine_definition : DefinitionContainer)
    (opts : StackOptions) : BuildState × Except BuildError Stack :=
  let stack : Stack := freshExtruderStack new_stack_id definition
  let stack := { stack with
    metadata := stack.metadata ++
      [("position", getMetaDataEntry definition.metadata "position" MVal.vNone)] }
  let user_container : InstanceContainer := extruderUserContainer new_stack_id
  let stack := { stack with userChanges := some user_container }
  let (st, stack) :=
    match opts.next_stack with
    | none => (st, stack)
    | some ns =>
        ({ st with trace := st.trace ++ [Event.setNextStack ns] },
         { stack with nextStack := some ns })
  match applyStackOptions env st stack opts with
  | (st, .error e) => (st, .error e)
  | (st, .ok stack) =>
    let st := addContainer st (Container.stack stack) stack.id
    let st := addContainer st (Container.instc user_container) user_container.id
    (st, .ok stack)

/-- Embedding of `ContainerRegistry.findDefinitionContainers(id = definition_id)`. -/
def findDefinitionsById (env : Env) (definition_id : String) :
    List DefinitionContainer :=
  env.definitions.filter (fun d => d.id == definition_id)

/-- Embedding of `ContainerRegistry.findDefinitionContainers(machine = machine_id)`:
extruder definitions whose `"machine"` metadata names the machine. -/
def findDefinitionsByMachine (env : Env) (machine_id : String) :
    List DefinitionContainer :=
  env.definitions.filter
    (fun d => getMetaDataEntry d.metadata "machine" MVal.vNone == MVal.vStr machine_id)

/-- The warning logged for a definition id with no match. -/
def warnDefinitionNotFound (definition_id : String) : String :=
  "Definition " ++ definition_id ++ " was not found!"

/-- The warning logged for an extruder definition whose position metadata is
missing (per the source, tested with Python truthiness). -/
def warnNoPosition (extruder_definition_id : String) : String :=
  "Extruder definition " ++ extruder_definition_id ++
    " specifies no position metadata entry."

/-- Modelled from the spec: `ContainerRegistry.createUniqueName` belongs to
the external registry (out of scope); it returns a unique name derived from
the proposed name and the fallback display name.  Uniqueness is the
a concern of the registry; no claim depends on the exact value. -/
def createUniqueName (_kind _oldName proposedName _fallback : String) : String :=
  proposedName

/-- Modelled from the spec: `ContainerRegistry.uniqueName` belongs to the
external registry (out of scope); it returns a unique name derived from the
seed.  No claim depends on the exact value. -/
def uniqueName (seed : String) : String :=
  seed

/-- The `for extruder_definition in findDefinitionContainers(machine = ...)`
loop of `createMachine`: for each extruder definition, warn if its
`"position"` metadata is falsy, then build an extruder stack linked to the
global stack; a raised error propagates out of the loop. -/
def buildExtruders (env : Env) (machine_definition : DefinitionContainer)
    (global_stack_id : String) :
    BuildState → List DefinitionContainer → BuildState × Except BuildError Unit
  | st, [] => (st, .ok ())
  | st, extruder_definition :: rest =>
    let position := getMetaDataEntry extruder_definition.metadata "position" MVal.vNone
    let st := if !position.truthy
      then logWarning st (warnNoPosition extruder_definition.id)
      else st
    let new_extruder_id := uniqueName extruder_definition.id
    match createExtruderStack env st new_extruder_id extruder_definition
        machine_definition
        { definition_changes := none, variant := some "default",
          material := some "default", quality := some "default",
          quality_changes := none, next_stack := some global_stack_id } with
    | (st, .error e) => (st, .error e)
    | (st, .ok _) => buildExtruders env machine_definition global_stack_id st rest

/-- Embedding of `CuraStackBuilder.createMachine(name, definition_id)`: look up the
machine definition (warn and return `None` if absent), build one global
stack with default quality/material/variant, build one extruder stack per
extruder definition of the machine, and return the global stack. -/
def createMachine (env : Env) (st : BuildState) (name : String)
    (definition_id : String) : BuildState × Except BuildError (Option Stack) :=
  match findDefinitionsById env definition_id with
  | [] => (logWarning st (warnDefinitionNotFound definition_id), .ok none)
  | machine_definition :: _ =>
    let name := createUniqueName "machine" "" name machine_definition.name
    match createGlobalStack env st name machine_definition
        { definition_changes := none, variant := some "default",
          material := some "default", quality := some "default",
          quality_changes := none, next_stack := none } with
    | (st, .error e) => (st, .error e)
    | (st, .ok new_global_stack) =>
      match buildExtruders env machine_definition new_global_stack.id st
          (findDefinitionsByMachine env machine_definition.id) with
      | (st, .error e) => (st, .error e)
      | (st, .ok _) => (st, .ok (some new_global_stack))

/-! ## Characterization lemmas -/

/-- The event produced by one optional layer setter: no event when the key
is absent from the kwargs. -/
def optEvent (ev : String → Event) : Option String → List Event
  | none => []
  | some cid => [ev cid]

/-- The events of the five optional layer setters in the fixed source
order: definition-changes, variant, material, quality, quality-changes. -/
def layerEvents (opts : StackOptions) : List Event :=
  optEvent Event.setDefinitionChanges opts.definition_changes ++
  optEvent Event.setVariant opts.variant ++
  optEvent Event.setMaterial opts.material ++
  optEvent Event.setQuality opts.quality ++
  optEvent Event.setQualityChanges opts.quality_changes

/-- The event produced by the optional `next_stack` link. -/
def nextStackEvents (o : Option String) : List Event :=
  optEvent Event.setNextStack o

/-- Whether a container carries the metadata entry `type=user`. -/
def containerTypeUser : Container → Bool
  | .stack s => getMetaDataEntry s.metadata "type" MVal.vNone == MVal.vStr "user"
  | .instc c => getMetaDataEntry c.metadata "type" MVal.vNone == MVal.vStr "user"

/-- Number of stacks of the given kind among a list of containers. -/
def countKind (k : StackKind) (cs : List Container) : Nat :=
  (cs.filter (fun c => match c with
    | .stack s => s.kind == k
    | .instc _ => false)).length

/-- The extruder stack that `createMachine` builds for one extruder
definition: default variant/material/quality, next stack the global stack. -/
def builtExtruder (global_stack_id : String)
    (extruder_definition : DefinitionContainer) : Stack :=
  { id := uniqueName extruder_definition.id, kind := .extruderK,
    definition := some extruder_definition,
    metadata := [("position",
      getMetaDataEntry extruder_definition.metadata "position" MVal.vNone)],
    userChanges := some (extruderUserContainer (uniqueName extruder_definition.id)),
    definitionChanges := none, variant := some "default",
    material := some "default", quality := some "default",
    qualityChanges := none, nextStack := some global_stack_id }

/-- The containers the extruder loop of `createMachine` registers: one
extruder stack and one user container per extruder definition, in order. -/
def extruderEntries (global_stack_id : String) :
    List DefinitionContainer → List Container
  | [] => []
  | ed :: rest =>
    Container.stack (builtExtruder global_stack_id ed) ::
      Container.instc (extruderUserContainer (uniqueName ed.id)) ::
      extruderEntries global_stack_id rest

/-- Whether a `createMachine` outcome is a normally returned stack. -/
def isOkSome : Except BuildError (Option Stack) → Bool
  | .ok (some _) => true
  | _ => false

/-- Sample machine definition used by the witnesses. -/
def dMachine : DefinitionContainer :=
  { id := "machine_a", name := "Machine A", metadata := [] }

/-- Sample extruder definition with a truthy position entry. -/
def dExtruder : DefinitionContainer :=
  { id := "extruder_a", name := "Extruder A",
    metadata := [("machine", MVal.vStr "machine_a"), ("position", MVal.vInt 1)] }

/-- Sample extruder definition whose position entry is present with the
integer value 0 (a legitimate first-extruder position per the spec, but a
falsy value in Python). -/
def dExtruderPosZero : DefinitionContainer :=
  { id := "extruder_z", name := "Extruder Z",
    metadata := [("machine", MVal.vStr "machine_a"), ("position", MVal.vInt 0)] }

/-- Sample extruder definition with no position entry at all. -/
def dExtruderNoPos : DefinitionContainer :=
  { id := "extruder_n", name := "Extruder N",
    metadata := [("machine", MVal.vStr "machine_a")] }

/-- Sample environment in which every layer id resolves. -/
def envAllOk : Env :=
  { definitions := [dMachine, dExtruder],
    resolveDefinitionChanges := fun _ => true, resolveVariant := fun _ => true,
    resolveMaterial := fun _ => true, resolveQuality := fun _ => true,
    resolveQualityChanges := fun _ => true }

/-- Sample environment whose machine has one extruder at position 0. -/
def envPosZero : Env :=
  { envAllOk with definitions := [dMachine, dExtruderPosZero] }

/-- Sample environment in which variant ids fail to resolve. -/
def envNoVariant : Env :=
  { envAllOk with resolveVariant := fun _ => false }

/-- Sample environment with an empty definition store. -/
def envNoDefs : Env :=
  { envAllOk with definitions := [] }

/-- Empty initial build state. -/
def st0 : BuildState :=
  { registry := [], log := [], trace := [] }

/-- Sample kwargs with every recognized option present. -/
def optsAll : StackOptions :=
  { definition_changes := some "dc", variant := some "va",
    material := some "ma", quality := some "qu",
    quality_changes := some "qc", next_stack := some "g1" }

/-- Sample kwargs with every recognized option absent. -/
def optsEmpty : StackOptions :=
  { definition_changes := none, variant := none, material := none,
    quality := none, quality_changes := none, next_stack := none }

/-- Whether a metadata dictionary carries an entry for the given key. -/
def hasMetaKey (md : MetaData) (key : String) : Bool :=
  md.any (fun p => p.1 == key)

/-- Ids of the definition-changes setter invocations in a trace, in order. -/
def dcSetIds : List Event → List String
  | [] => []
  | Event.setDefinitionChanges cid :: rest => cid :: dcSetIds rest
  | _ :: rest => dcSetIds rest

/-- Ids of the variant setter invocations in a trace, in order. -/
def variantSetIds : List Event → List String
  | [] => []
  | Event.setVariant cid :: rest => cid :: variantSetIds rest
  | _ :: rest => variantSetIds rest

/-- Ids of the material setter invocations in a trace, in order. -/
def materialSetIds : List Event → List String
  | [] => []
  | Event.setMaterial cid :: rest => cid :: materialSetIds rest
  | _ :: rest => materialSetIds rest

/-- Ids of the quality setter invocations in a trace, in order. -/
def qualitySetIds : List Event → List String
  | [] => []
  | Event.setQuality cid :: rest => cid :: qualitySetIds rest
  | _ :: rest => qualitySetIds rest

/-- Ids of the quality-changes setter invocations in a trace, in order. -/
def qcSetIds : List Event → List String
  | [] => []
  | Event.setQualityChanges cid :: rest => cid :: qcSetIds rest
  | _ :: rest => qcSetIds rest

/-- Whether every extruder stack in a list of containers has the given
global stack as its next stack. -/
def extrudersLinked (global_stack_id : String) (cs : List Container) : Bool :=
  cs.all (fun c => match c with
    | Container.stack s =>
        if s.kind == StackKind.extruderK
        then s.nextStack == some global_stack_id
        else true
    | Container.instc _ => true)

/-- The containers `createMachine` registers for a machine definition `md`
whose global stack is `g`: the global stack, its user container, and the
entries of the extruder loop. -/
def machineEntries (env : Env) (md : DefinitionContainer) (g : Stack) :
    List Container :=
  [Container.stack g, Container.instc (globalUserContainer g.id md)] ++
    extruderEntries g.id (findDefinitionsByMachine env md.id)

/-- Result stack of `createGlobalStack envAllOk st0 "g1" dMachine optsAll`. -/
def sGlobalAll : Stack :=
  { id := "g1", kind := .globalK, definition := some dMachine, metadata := [],
    userChanges := some (globalUserContainer "g1" dMachine),
    definitionChanges := some "dc", variant := some "va",
    material := some "ma", quality := some "qu",
    qualityChanges := some "qc", nextStack := none }

/-- Result stack of
`createExtruderStack envAllOk st0 "e1" dExtruder dMachine optsAll`. -/
def sExtruderAll : Stack :=
  { id := "e1", kind := .extruderK, definition := some dExtruder,
    metadata := [("position", MVal.vInt 1)],
    userChanges := some (extruderUserContainer "e1"),
    definitionChanges := some "dc", variant := some "va",
    material := some "ma", quality := some "qu",
    qualityChanges := some "qc", nextStack := some "g1" }

/-- Result stack of `createGlobalStack envAllOk st0 "g1" dMachine optsEmpty`. -/
def sGlobalEmpty : Stack :=
  { id := "g1", kind := .globalK, definition := some dMachine, metadata := [],
    userChanges := some (globalUserContainer "g1" dMachine),
    definitionChanges := none, variant := none, material := none,
    quality := none, qualityChanges := none, nextStack := none }

/-- Result stack of
`createExtruderStack envAllOk st0 "e1" dExtruderNoPos dMachine optsEmpty`. -/
def sExtruderNoPos : Stack :=
  { id := "e1", kind := .extruderK, definition := some dExtruderNoPos,
    metadata := [("position", MVal.vNone)],
    userChanges := some (extruderUserContainer "e1"),
    definitionChanges := none, variant := none, material := none,
    quality := none, qualityChanges := none, nextStack := none }

/-- Result global stack of
`createMachine envAllOk st0 "My Printer" "machine_a"`. -/
def gMachineA : Stack :=
  { id := "My Printer", kind := .globalK, definition := some dMachine,
    metadata := [],
    userChanges := some (globalUserContainer "My Printer" dMachine),
    definitionChanges := none, variant := some "default",
    material := some "default", quality := some "default",
    qualityChanges := none, nextStack := none }

theorem applyStackOptions_ok (env : Env) (st : BuildState) (stack : Stack)
    (opts : StackOptions) (st' : BuildState) (s : Stack)
    (h : applyStackOptions env st stack opts = (st', .ok s)) :
    st' = { st with trace := st.trace ++ layerEvents opts } ∧
    s = { stack with
      definitionChanges := opts.definition_changes.or stack.definitionChanges,
      variant := opts.variant.or stack.variant,
      material := opts.material.or stack.material,
      quality := opts.quality.or stack.quality,
      qualityChanges := opts.quality_changes.or stack.qualityChanges } := by
  obtain ⟨dc, v, m, q, qc, ns⟩ := opts
  cases dc <;> cases v <;> cases m <;> cases q <;> cases qc <;>
    simp_all [applyStackOptions, stepDefinitionChanges, stepVariant, stepMaterial,
      stepQuality, stepQualityChanges, setDefinitionChangesById, setStackVariant,
      setStackMaterial, setStackQuality, setQualityChangesById, layerEvents,
      optEvent, Option.or, List.append_assoc] <;>
    split_ifs at h <;> simp_all

theorem applyStackOptions_fst (env : Env) (st : BuildState) (stack : Stack)
    (opts : StackOptions) :
    (applyStackOptions env st stack opts).1.registry = st.registry ∧
    (applyStackOptions env st stack opts).1.log = st.log := by
  obtain ⟨dc, v, m, q, qc, ns⟩ := opts
  cases dc <;> cases v <;> cases m <;> cases q <;> cases qc <;>
    simp [applyStackOptions, stepDefinitionChanges, stepVariant, stepMaterial,
      stepQuality, stepQualityChanges, setDefinitionChangesById, setStackVariant,
      setStackMaterial, setStackQuality, setQualityChangesById] <;>
    split_ifs <;> simp

theorem applyStackOptions_error (env : Env) (st : BuildState) (stack : Stack)
    (opts : StackOptions) (st' : BuildState) (e : BuildError)
    (h : applyStackOptions env st stack opts = (st', .error e)) :
    st'.registry = st.registry ∧ st'.log = st.log := by
  have hfst := applyStackOptions_fst env st stack opts
  rw [h] at hfst
  exact hfst

theorem createGlobalStack_ok (env : Env) (st : BuildState)
    (new_stack_id : String) (definition : DefinitionContainer)
    (opts : StackOptions) (st' : BuildState) (s : Stack)
    (h : createGlobalStack env st new_stack_id definition opts = (st', .ok s)) :
    s = { id := new_stack_id, kind := .globalK, definition := some definition,
          metadata := [],
          userChanges := some (globalUserContainer new_stack_id definition),
          definitionChanges := opts.definition_changes, variant := opts.variant,
          material := opts.material, quality := opts.quality,
          qualityChanges := opts.quality_changes, nextStack := none } ∧
    st' = { st with
      registry := st.registry ++
        [Container.stack s,
         Container.instc (globalUserContainer new_stack_id definition)],
      trace := (st.trace ++ layerEvents opts) ++
        [Event.register new_stack_id,
         Event.register (new_stack_id ++ "_user")] } := by
  simp only [createGlobalStack] at h
  rcases happly : applyStackOptions env st
      { freshGlobalStack new_stack_id definition with
        userChanges := some (globalUserContainer new_stack_id definition) } opts
    with ⟨st1, r1⟩
  rw [happly] at h
  cases r1 with
  | error e => simp at h
  | ok stack1 =>
    obtain ⟨hst1, hs1⟩ := applyStackOptions_ok _ _ _ _ _ _ happly
    rw [Prod.mk.injEq] at h
    obtain ⟨h1, h2⟩ := h
    injection h2 with h2
    subst h2
    subst h1
    subst hst1
    subst hs1
    constructor
    · simp [freshGlobalStack]
    · simp [addContainer, freshGlobalStack, globalUserContainer,
        List.append_assoc]

theorem createGlobalStack_error (env : Env) (st : BuildState)
    (new_stack_id : String) (definition : DefinitionContainer)
    (opts : StackOptions) (st' : BuildState) (e : BuildError)
    (h : createGlobalStack env st new_stack_id definition opts = (st', .error e)) :
    st'.registry = st.registry ∧ st'.log = st.log := by
  simp only [createGlobalStack] at h
  rcases happly : applyStackOptions env st
      { freshGlobalStack new_stack_id definition with
        userChanges := some (globalUserContainer new_stack_id definition) } opts
    with ⟨st1, r1⟩
  rw [happly] at h
  cases r1 with
  | error e' =>
    rw [Prod.mk.injEq] at h
    obtain ⟨h1, h2⟩ := h
    subst h1
    exact applyStackOptions_error _ _ _ _ _ _ happly
  | ok stack1 => simp [addContainer] at h

theorem createExtruderStack_ok (env : Env) (st : BuildState)
    (new_stack_id : String) (definition machine_definition : DefinitionContainer)
    (opts : StackOptions) (st' : BuildState) (s : Stack)
    (h : createExtruderStack env st new_stack_id definition machine_definition
      opts = (st', .ok s)) :
    s = { id := new_stack_id, kind := .extruderK, definition := some definition,
          metadata := [("position",
            getMetaDataEntry definition.metadata "position" MVal.vNone)],
          userChanges := some (extruderUserContainer new_stack_id),
          definitionChanges := opts.definition_changes, variant := opts.variant,
          material := opts.material, quality := opts.quality,
          qualityChanges := opts.quality_changes,
          nextStack := opts.next_stack } ∧
    st' = { st with
      registry := st.registry ++
        [Container.stack s, Container.instc (extruderUserContainer new_stack_id)],
      trace := ((st.trace ++ nextStackEvents opts.next_stack) ++
        layerEvents opts) ++
        [Event.register new_stack_id,
         Event.register (new_stack_id ++ "_user")] } := by
  obtain ⟨dc, v, m, q, qc, ns⟩ := opts
  cases ns with
  | none =>
    simp only [createExtruderStack] at h
    rcases happly : applyStackOptions env st
        { freshExtruderStack new_stack_id definition with
          metadata := (freshExtruderStack new_stack_id definition).metadata ++
            [("position", getMetaDataEntry definition.metadata "position" MVal.vNone)],
          userChanges := some (extruderUserContainer new_stack_id) }
        { definition_changes := dc, variant := v, material := m, quality := q,
          quality_changes := qc, next_stack := none }
      with ⟨st1, r1⟩
    rw [happly] at h
    cases r1 with
    | error e => simp at h
    | ok stack1 =>
      obtain ⟨hst1, hs1⟩ := applyStackOptions_ok _ _ _ _ _ _ happly
      rw [Prod.mk.injEq] at h
      obtain ⟨h1, h2⟩ := h
      injection h2 with h2
      subst h2
      subst h1
      subst hst1
      subst hs1
      constructor
      · simp [freshExtruderStack]
      · simp [addContainer, freshExtruderStack, extruderUserContainer,
          nextStackEvents, optEvent, List.append_assoc]
  | some nsid =>
    simp only [createExtruderStack] at h
    rcases happly : applyStackOptions env
        { st with trace := st.trace ++ [Event.setNextStack nsid] }
        { freshExtruderStack new_stack_id definition with
          metadata := (freshExtruderStack new_stack_id definition).metadata ++
            [("position", getMetaDataEntry definition.metadata "position" MVal.vNone)],
          userChanges := some (extruderUserContainer new_stack_id),
          nextStack := some nsid }
        { definition_changes := dc, variant := v, material := m, quality := q,
          quality_changes := qc, next_stack := some nsid }
      with ⟨st1, r1⟩
    rw [happly] at h
    cases r1 with
    | error e => simp at h
    | ok stack1 =>
      obtain ⟨hst1, hs1⟩ := applyStackOptions_ok _ _ _ _ _ _ happly
      rw [Prod.mk.injEq] at h
      obtain ⟨h1, h2⟩ := h
      injection h2 with h2
      subst h2
      subst h1
      subst hst1
      subst hs1
      constructor
      · simp [freshExtruderStack]
      · simp [addContainer, freshExtruderStack, extruderUserContainer,
          nextStackEvents, optEvent, List.append_assoc]

theorem createExtruderStack_error (env : Env) (st : BuildState)
    (new_stack_id : String) (definition machine_definition : DefinitionContainer)
    (opts : StackOptions) (st' : BuildState) (e : BuildError)
    (h : createExtruderStack env st new_stack_id definition machine_definition
      opts = (st', .error e)) :
    st'.registry = st.registry ∧ st'.log = st.log := by
  obtain ⟨dc, v, m, q, qc, ns⟩ := opts
  cases ns with
  | none =>
    simp only [createExtruderStack] at h
    rcases happly : applyStackOptions env st
        { freshExtruderStack new_stack_id definition with
          metadata := (freshExtruderStack new_stack_id definition).metadata ++
            [("position", getMetaDataEntry definition.metadata "position" MVal.vNone)],
          userChanges := some (extruderUserContainer new_stack_id) }
        { definition_changes := dc, variant := v, material := m, quality := q,
          quality_changes := qc, next_stack := none }
      with ⟨st1, r1⟩
    rw [happly] at h
    cases r1 with
    | error e' =>
      rw [Prod.mk.injEq] at h
      obtain ⟨h1, h2⟩ := h
      subst h1
      exact applyStackOptions_error _ _ _ _ _ _ happly
    | ok stack1 => simp [addContainer] at h
  | some nsid =>
    simp only [createExtruderStack] at h
    rcases happly : applyStackOptions env
        { st with trace := st.trace ++ [Event.setNextStack nsid] }
        { freshExtruderStack new_stack_id definition with
          metadata := (freshExtruderStack new_stack_id definition).metadata ++
            [("position", getMetaDataEntry definition.metadata "position" MVal.vNone)],
          userChanges := some (extruderUserContainer new_stack_id),
          nextStack := some nsid }
        { definition_changes := dc, variant := v, material := m, quality := q,
          quality_changes := qc, next_stack := some nsid }
      with ⟨st1, r1⟩
    rw [happly] at h
    cases r1 with
    | error e' =>
      rw [Prod.mk.injEq] at h
      obtain ⟨h1, h2⟩ := h
      subst h1
      have herr := applyStackOptions_error _ _ _ _ _ _ happly
      simpa using herr
    | ok stack1 => simp [addContainer] at h

theorem buildExtruders_ok (env : Env) (md : DefinitionContainer)
    (gid : String) :
    ∀ (eds : List DefinitionContainer) (st st' : BuildState),
      buildExtruders env md gid st eds = (st', .ok ()) →
      st'.registry = st.registry ++ extruderEntries gid eds := by
  intro eds
  induction eds with
  | nil =>
    intro st st' h
    simp only [buildExtruders] at h
    rw [Prod.mk.injEq] at h
    obtain ⟨h1, h2⟩ := h
    subst h1
    simp [extruderEntries]
  | cons ed rest ih =>
    intro st st' h
    cases hpos : (getMetaDataEntry ed.metadata "position" MVal.vNone).truthy with
    | false =>
      simp only [buildExtruders, hpos, Bool.not_false, if_pos] at h
      rcases hce : createExtruderStack env (logWarning st (warnNoPosition ed.id))
          (uniqueName ed.id) ed md
          { definition_changes := none, variant := some "default",
            material := some "default", quality := some "default",
            quality_changes := none, next_stack := some gid }
        with ⟨st1, r1⟩
      rw [hce] at h
      cases r1 with
      | error e => simp at h
      | ok s =>
        have hreg := ih st1 st' h
        obtain ⟨hs, hst1⟩ := createExtruderStack_ok _ _ _ _ _ _ _ _ hce
        subst hs
        subst hst1
        simp [hreg, logWarning, extruderEntries, builtExtruder,
          List.append_assoc]
    | true =>
      simp only [buildExtruders, hpos, Bool.not_true] at h
      rw [if_neg (by decide)] at h
      rcases hce : createExtruderStack env st (uniqueName ed.id) ed md
          { definition_changes := none, variant := some "default",
            material := some "default", quality := some "default",
            quality_changes := none, next_stack := some gid }
        with ⟨st1, r1⟩
      rw [hce] at h
      cases r1 with
      | error e => simp at h
      | ok s =>
        have hreg := ih st1 st' h
        obtain ⟨hs, hst1⟩ := createExtruderStack_ok _ _ _ _ _ _ _ _ hce
        subst hs
        subst hst1
        simp [hreg, extruderEntries, builtExtruder, List.append_assoc]

theorem countKind_append (k : StackKind) (a b : List Container) :
    countKind k (a ++ b) = countKind k a + countKind k b := by
  simp [countKind, List.filter_append]

theorem countKind_extruderEntries_global (gid : String)
    (eds : List DefinitionContainer) :
    countKind .globalK (extruderEntries gid eds) = 0 := by
  induction eds with
  | nil => simp [extruderEntries, countKind]
  | cons ed rest ih =>
    simp [extruderEntries, countKind, builtExtruder] at ih ⊢
    exact ih

theorem countKind_extruderEntries_extruder (gid : String)
    (eds : List DefinitionContainer) :
    countKind .extruderK (extruderEntries gid eds) = eds.length := by
  induction eds with
  | nil => simp [extruderEntries, countKind]
  | cons ed rest ih =>
    simp [extruderEntries, countKind, builtExtruder] at ih ⊢
    exact ih

theorem nextStack_extruderEntries (gid : String)
    (eds : List DefinitionContainer) (s : Stack)
    (h : Container.stack s ∈ extruderEntries gid eds) :
    s.nextStack = some gid := by
  induction eds with
  | nil => simp [extruderEntries] at h
  | cons ed rest ih =>
    simp only [extruderEntries, List.mem_cons] at h
    rcases h with h | h | h
    · injection h with h
      subst h
      rfl
    · exact absurd h (by simp)
    · exact ih h

theorem createMachine_ok (env : Env) (st : BuildState) (name did : String)
    (md : DefinitionContainer) (rest : List DefinitionContainer)
    (hfind : findDefinitionsById env did = md :: rest)
    (st' : BuildState) (g : Stack)
    (h : createMachine env st name did = (st', .ok (some g))) :
    g = { id := createUniqueName "machine" "" name md.name, kind := .globalK,
          definition := some md, metadata := [],
          userChanges := some (globalUserContainer
            (createUniqueName "machine" "" name md.name) md),
          definitionChanges := none, variant := some "default",
          material := some "default", quality := some "default",
          qualityChanges := none, nextStack := none } ∧
    st'.registry = (st.registry ++
      [Container.stack g, Container.instc (globalUserContainer g.id md)]) ++
      extruderEntries g.id (findDefinitionsByMachine env md.id) := by
  simp only [createMachine, hfind] at h
  rcases hg : createGlobalStack env st (createUniqueName "machine" "" name md.name)
      md { definition_changes := none, variant := some "default",
           material := some "default", quality := some "default",
           quality_changes := none, next_stack := none }
    with ⟨st1, r1⟩
  rw [hg] at h
  cases r1 with
  | error e => simp at h
  | ok g0 =>
    simp only [] at h
    rcases hb : buildExtruders env md g0.id st1 (findDefinitionsByMachine env md.id)
      with ⟨st2, r2⟩
    rw [hb] at h
    cases r2 with
    | error e => simp at h
    | ok u =>
      rw [Prod.mk.injEq] at h
      obtain ⟨h1, h2⟩ := h
      injection h2 with h2
      injection h2 with h2
      subst h2
      subst h1
      obtain ⟨hgdef, hst1⟩ := createGlobalStack_ok _ _ _ _ _ _ _ hg
      have hreg2 := buildExtruders_ok env md g0.id
        (findDefinitionsByMachine env md.id) st1 st2 hb
      constructor
      · exact hgdef
      · rw [hreg2]
        subst hst1
        simp [hgdef]

theorem dcSetIds_append (t1 t2 : List Event) :
    dcSetIds (t1 ++ t2) = dcSetIds t1 ++ dcSetIds t2 := by
  induction t1 with
  | nil => simp [dcSetIds]
  | cons e rest ih => cases e <;> simp [dcSetIds, ih]

theorem variantSetIds_append (t1 t2 : List Event) :
    variantSetIds (t1 ++ t2) = variantSetIds t1 ++ variantSetIds t2 := by
  induction t1 with
  | nil => simp [variantSetIds]
  | cons e rest ih => cases e <;> simp [variantSetIds, ih]

theorem materialSetIds_append (t1 t2 : List Event) :
    materialSetIds (t1 ++ t2) = materialSetIds t1 ++ materialSetIds t2 := by
  induction t1 with
  | nil => simp [materialSetIds]
  | cons e rest ih => cases e <;> simp [materialSetIds, ih]

theorem qualitySetIds_append (t1 t2 : List Event) :
    qualitySetIds (t1 ++ t2) = qualitySetIds t1 ++ qualitySetIds t2 := by
  induction t1 with
  | nil => simp [qualitySetIds]
  | cons e rest ih => cases e <;> simp [qualitySetIds, ih]

theorem qcSetIds_append (t1 t2 : List Event) :
    qcSetIds (t1 ++ t2) = qcSetIds t1 ++ qcSetIds t2 := by
  induction t1 with
  | nil => simp [qcSetIds]
  | cons e rest ih => cases e <;> simp [qcSetIds, ih]

theorem dcSetIds_layerEvents (opts : StackOptions) :
    dcSetIds (layerEvents opts) = opts.definition_changes.toList := by
  obtain ⟨dc, v, m, q, qc, ns⟩ := opts
  cases dc <;> cases v <;> cases m <;> cases q <;> cases qc <;>
    simp [layerEvents, optEvent, dcSetIds]

theorem variantSetIds_layerEvents (opts : StackOptions) :
    variantSetIds (layerEvents opts) = opts.variant.toList := by
  obtain ⟨dc, v, m, q, qc, ns⟩ := opts
  cases dc <;> cases v <;> cases m <;> cases q <;> cases qc <;>
    simp [layerEvents, optEvent, variantSetIds]

theorem materialSetIds_layerEvents (opts : StackOptions) :
    materialSetIds (layerEvents opts) = opts.material.toList := by
  obtain ⟨dc, v, m, q, qc, ns⟩ := opts
  cases dc <;> cases v <;> cases m <;> cases q <;> cases qc <;>
    simp [layerEvents, optEvent, materialSetIds]

theorem qualitySetIds_layerEvents (opts : StackOptions) :
    qualitySetIds (layerEvents opts) = opts.quality.toList := by
  obtain ⟨dc, v, m, q, qc, ns⟩ := opts
  cases dc <;> cases v <;> cases m <;> cases q <;> cases qc <;>
    simp [layerEvents, optEvent, qualitySetIds]

theorem qcSetIds_layerEvents (opts : StackOptions) :
    qcSetIds (layerEvents opts) = opts.quality_changes.toList := by
  obtain ⟨dc, v, m, q, qc, ns⟩ := opts
  cases dc <;> cases v <;> cases m <;> cases q <;> cases qc <;>
    simp [layerEvents, optEvent, qcSetIds]

theorem dcSetIds_nextStackEvents (o : Option String) :
    dcSetIds (nextStackEvents o) = [] := by
  cases o <;> simp [nextStackEvents, optEvent, dcSetIds]

theorem variantSetIds_nextStackEvents (o : Option String) :
    variantSetIds (nextStackEvents o) = [] := by
  cases o <;> simp [nextStackEvents, optEvent, variantSetIds]

theorem materialSetIds_nextStackEvents (o : Option String) :
    materialSetIds (nextStackEvents o) = [] := by
  cases o <;> simp [nextStackEvents, optEvent, materialSetIds]

theorem qualitySetIds_nextStackEvents (o : Option String) :
    qualitySetIds (nextStackEvents o) = [] := by
  cases o <;> simp [nextStackEvents, optEvent, qualitySetIds]

theorem qcSetIds_nextStackEvents (o : Option String) :
    qcSetIds (nextStackEvents o) = [] := by
  cases o <;> simp [nextStackEvents, optEvent, qcSetIds]

theorem extrudersLinked_extruderEntries (gid : String)
    (eds : List DefinitionContainer) :
    extrudersLinked gid (extruderEntries gid eds) = true := by
  induction eds with
  | nil => simp [extruderEntries, extrudersLinked]
  | cons ed rest ih =>
    simp [extruderEntries, extrudersLinked, builtExtruder] at ih ⊢
    exact ih

/-! ## Claims -/

/-- C1: for every call to `createGlobalStack` or `createExtruderStack`, if
resolving or setting any optional layer fails, the failure propagates to the
caller (the call returns that error) and neither the stack nor its
user-override container is registered: the registry, and the log, are
exactly as before the call.  Registration of both happens only after all
layers are configured without error. -/
theorem claim_C1_failure_atomicity (env : Env) (st : BuildState)
    (new_stack_id : String)
    (definition machine_definition : DefinitionContainer)
    (opts : StackOptions) (st' : BuildState) (e : BuildError)
    (h : createGlobalStack env st new_stack_id definition opts =
          (st', .error e) ∨
         createExtruderStack env st new_stack_id definition machine_definition
          opts = (st', .error e)) :
    st'.registry = st.registry ∧ st'.log = st.log := by
  rcases h with h | h
  · exact createGlobalStack_error _ _ _ _ _ _ _ h
  · exact createExtruderStack_error _ _ _ _ _ _ _ _ h

theorem claim_C1_failure_atomicity_witness :
    (createGlobalStack envNoVariant st0 "g1" dMachine optsAll).1.registry =
      st0.registry ∧
    (createGlobalStack envNoVariant st0 "g1" dMachine optsAll).1.log =
      st0.log :=
  claim_C1_failure_atomicity envNoVariant st0 "g1" dMachine dMachine optsAll
    (createGlobalStack envNoVariant st0 "g1" dMachine optsAll).1
    (BuildError.unresolved "variant" "va") (Or.inl (by rfl))

/-- C2: for every definition id with no matching definition in the registry,
`createMachine` logs the not-found warning, returns no result (`none`,
absence rather than an exception), and registers no stack and no
container. -/
theorem claim_C2_not_found (env : Env) (st : BuildState)
    (name definition_id : String)
    (h : ∀ d ∈ env.definitions, d.id ≠ definition_id) :
    createMachine env st name definition_id =
      (logWarning st (warnDefinitionNotFound definition_id), .ok none) ∧
    (logWarning st (warnDefinitionNotFound definition_id)).registry =
      st.registry ∧
    (logWarning st (warnDefinitionNotFound definition_id)).log =
      st.log ++ [warnDefinitionNotFound definition_id] := by
  have hfind : findDefinitionsById env definition_id = [] := by
    simp only [findDefinitionsById, List.filter_eq_nil_iff]
    intro d hd
    simpa using h d hd
  exact ⟨by simp [createMachine, hfind], by simp [logWarning],
    by simp [logWarning]⟩

theorem claim_C2_not_found_witness :
    createMachine envNoDefs st0 "My Printer" "machine_a" =
      (logWarning st0 (warnDefinitionNotFound "machine_a"), .ok none) ∧
    (logWarning st0 (warnDefinitionNotFound "machine_a")).registry =
      st0.registry ∧
    (logWarning st0 (warnDefinitionNotFound "machine_a")).log =
      st0.log ++ [warnDefinitionNotFound "machine_a"] :=
  claim_C2_not_found envNoDefs st0 "My Printer" "machine_a" (by decide)

/-- C3: in both builders, on success the trace of the call is, in this fixed
order: for `createExtruderStack` first the `next_stack` link (when that
option is supplied), then `layerEvents` — by definition the events
definition-changes, then variant, then material, then quality, then
quality-changes — and only then the two registrations.  For
`createGlobalStack` the same, with no next-stack link. -/
theorem claim_C3_fixed_order (env : Env) (st : BuildState)
    (new_stack_id : String)
    (definition machine_definition : DefinitionContainer)
    (opts : StackOptions) (st' : BuildState) (s : Stack) :
    (createGlobalStack env st new_stack_id definition opts = (st', .ok s) →
      st'.trace = (st.trace ++ layerEvents opts) ++
        [Event.register new_stack_id,
         Event.register (new_stack_id ++ "_user")]) ∧
    (createExtruderStack env st new_stack_id definition machine_definition
        opts = (st', .ok s) →
      st'.trace = ((st.trace ++ nextStackEvents opts.next_stack) ++
        layerEvents opts) ++
        [Event.register new_stack_id,
         Event.register (new_stack_id ++ "_user")]) := by
  constructor
  · intro h
    obtain ⟨hs, hst⟩ := createGlobalStack_ok _ _ _ _ _ _ _ h
    subst hst
    rfl
  · intro h
    obtain ⟨hs, hst⟩ := createExtruderStack_ok _ _ _ _ _ _ _ _ h
    subst hst
    rfl

theorem claim_C3_fixed_order_witness :
    ((createGlobalStack envAllOk st0 "g1" dMachine optsAll).1.trace =
      (st0.trace ++ layerEvents optsAll) ++
        [Event.register "g1", Event.register ("g1" ++ "_user")]) ∧
    ((createExtruderStack envAllOk st0 "e1" dExtruder dMachine
        optsAll).1.trace =
      ((st0.trace ++ nextStackEvents optsAll.next_stack) ++
        layerEvents optsAll) ++
        [Event.register "e1", Event.register ("e1" ++ "_user")]) :=
  ⟨(claim_C3_fixed_order envAllOk st0 "g1" dMachine dMachine optsAll
      (createGlobalStack envAllOk st0 "g1" dMachine optsAll).1
      sGlobalAll).1 (by rfl),
   (claim_C3_fixed_order envAllOk st0 "e1" dExtruder dMachine optsAll
      (createExtruderStack envAllOk st0 "e1" dExtruder dMachine optsAll).1
      sExtruderAll).2 (by rfl)⟩

/-- C4: for every machine definition found in the registry with N associated
extruder definitions, a successful `createMachine` extends the registry with
exactly one global stack and exactly N extruder stacks (plus their user
containers), every extruder stack among the new entries has the global stack
as its next stack, and the returned stack is that global stack. -/
theorem claim_C4_machine_counts (env : Env) (st : BuildState)
    (name definition_id : String) (md : DefinitionContainer)
    (rest : List DefinitionContainer)
    (hfind : findDefinitionsById env definition_id = md :: rest)
    (st' : BuildState) (g : Stack)
    (h : createMachine env st name definition_id = (st', .ok (some g))) :
    st'.registry = st.registry ++ machineEntries env md g ∧
    countKind .globalK (machineEntries env md g) = 1 ∧
    countKind .extruderK (machineEntries env md g) =
      (findDefinitionsByMachine env md.id).length ∧
    g.kind = .globalK ∧
    extrudersLinked g.id (machineEntries env md g) = true := by
  obtain ⟨hgdef, hreg⟩ :=
    createMachine_ok env st name definition_id md rest hfind st' g h
  refine ⟨?_, ?_, ?_, ?_, ?_⟩
  · rw [hreg]
    simp [machineEntries, List.append_assoc]
  · rw [machineEntries, countKind_append,
      countKind_extruderEntries_global g.id (findDefinitionsByMachine env md.id)]
    have hk : g.kind = .globalK := by rw [hgdef]
    simp [countKind, hk]
  · rw [machineEntries, countKind_append,
      countKind_extruderEntries_extruder g.id (findDefinitionsByMachine env md.id)]
    have hk : g.kind = .globalK := by rw [hgdef]
    simp [countKind, hk]
  · rw [hgdef]
  · rw [machineEntries]
    have hk : g.kind = .globalK := by rw [hgdef]
    have hlink := extrudersLinked_extruderEntries g.id
      (findDefinitionsByMachine env md.id)
    simp [extrudersLinked, hk] at hlink ⊢
    exact hlink

theorem claim_C4_machine_counts_witness :
    (createMachine envAllOk st0 "My Printer" "machine_a").1.registry =
      st0.registry ++ machineEntries envAllOk dMachine gMachineA ∧
    countKind .globalK (machineEntries envAllOk dMachine gMachineA) = 1 ∧
    countKind .extruderK (machineEntries envAllOk dMachine gMachineA) =
      (findDefinitionsByMachine envAllOk dMachine.id).length ∧
    gMachineA.kind = .globalK ∧
    extrudersLinked gMachineA.id
      (machineEntries envAllOk dMachine gMachineA) = true :=
  claim_C4_machine_counts envAllOk st0 "My Printer" "machine_a" dMachine []
    (by decide)
    (createMachine envAllOk st0 "My Printer" "machine_a").1 gMachineA (by rfl)

/-- C5: every stack built by `createGlobalStack` or `createExtruderStack`
carries its user-override container, which has metadata `type=user`; the
user container of a global stack carries `machine=<stack id>` and no
`extruder` key, the user container of an extruder stack carries
`extruder=<stack id>` and no `machine` key; and among the containers the
call registers, the user container is the only one with `type=user` (the
stack itself is not of type user). -/
theorem claim_C5_user_metadata (env : Env) (st : BuildState)
    (new_stack_id : String)
    (definition machine_definition : DefinitionContainer)
    (opts : StackOptions) (st' : BuildState) (s : Stack) :
    (createGlobalStack env st new_stack_id definition opts = (st', .ok s) →
      s.userChanges = some (globalUserContainer new_stack_id definition) ∧
      getMetaDataEntry (globalUserContainer new_stack_id definition).metadata
        "type" MVal.vNone = MVal.vStr "user" ∧
      getMetaDataEntry (globalUserContainer new_stack_id definition).metadata
        "machine" MVal.vNone = MVal.vStr new_stack_id ∧
      hasMetaKey (globalUserContainer new_stack_id definition).metadata
        "machine" = true ∧
      hasMetaKey (globalUserContainer new_stack_id definition).metadata
        "extruder" = false ∧
      st'.registry = st.registry ++ [Container.stack s,
        Container.instc (globalUserContainer new_stack_id definition)] ∧
      containerTypeUser (Container.stack s) = false ∧
      containerTypeUser (Container.instc
        (globalUserContainer new_stack_id definition)) = true) ∧
    (createExtruderStack env st new_stack_id definition machine_definition
        opts = (st', .ok s) →
      s.userChanges = some (extruderUserContainer new_stack_id) ∧
      getMetaDataEntry (extruderUserContainer new_stack_id).metadata
        "type" MVal.vNone = MVal.vStr "user" ∧
      getMetaDataEntry (extruderUserContainer new_stack_id).metadata
        "extruder" MVal.vNone = MVal.vStr new_stack_id ∧
      hasMetaKey (extruderUserContainer new_stack_id).metadata
        "extruder" = true ∧
      hasMetaKey (extruderUserContainer new_stack_id).metadata
        "machine" = false ∧
      st'.registry = st.registry ++ [Container.stack s,
        Container.instc (extruderUserContainer new_stack_id)] ∧
      containerTypeUser (Container.stack s) = false ∧
      containerTypeUser (Container.instc
        (extruderUserContainer new_stack_id)) = true) := by
  constructor
  · intro h
    obtain ⟨hs, hst⟩ := createGlobalStack_ok _ _ _ _ _ _ _ h
    subst hst
    subst hs
    refine ⟨rfl, rfl, rfl, rfl, rfl, by simp [addContainer], rfl, rfl⟩
  · intro h
    obtain ⟨hs, hst⟩ := createExtruderStack_ok _ _ _ _ _ _ _ _ h
    subst hst
    subst hs
    refine ⟨rfl, rfl, rfl, rfl, rfl, by simp [addContainer], rfl, rfl⟩

theorem claim_C5_user_metadata_witness :
    (sGlobalAll.userChanges = some (globalUserContainer "g1" dMachine) ∧
     getMetaDataEntry (globalUserContainer "g1" dMachine).metadata
       "type" MVal.vNone = MVal.vStr "user" ∧
     getMetaDataEntry (globalUserContainer "g1" dMachine).metadata
       "machine" MVal.vNone = MVal.vStr "g1" ∧
     hasMetaKey (globalUserContainer "g1" dMachine).metadata "machine" = true ∧
     hasMetaKey (globalUserContainer "g1" dMachine).metadata "extruder" = false ∧
     (createGlobalStack envAllOk st0 "g1" dMachine optsAll).1.registry =
       st0.registry ++ [Container.stack sGlobalAll,
         Container.instc (globalUserContainer "g1" dMachine)] ∧
     containerTypeUser (Container.stack sGlobalAll) = false ∧
     containerTypeUser (Container.instc
       (globalUserContainer "g1" dMachine)) = true) ∧
    (sExtruderAll.userChanges = some (extruderUserContainer "e1") ∧
     getMetaDataEntry (extruderUserContainer "e1").metadata
       "type" MVal.vNone = MVal.vStr "user" ∧
     getMetaDataEntry (extruderUserContainer "e1").metadata
       "extruder" MVal.vNone = MVal.vStr "e1" ∧
     hasMetaKey (extruderUserContainer "e1").metadata "extruder" = true ∧
     hasMetaKey (extruderUserContainer "e1").metadata "machine" = false ∧
     (createExtruderStack envAllOk st0 "e1" dExtruder dMachine
       optsAll).1.registry =
       st0.registry ++ [Container.stack sExtruderAll,
         Container.instc (extruderUserContainer "e1")] ∧
     containerTypeUser (Container.stack sExtruderAll) = false ∧
     containerTypeUser (Container.instc (extruderUserContainer "e1")) = true) :=
  ⟨(claim_C5_user_metadata envAllOk st0 "g1" dMachine dMachine optsAll
      (createGlobalStack envAllOk st0 "g1" dMachine optsAll).1
      sGlobalAll).1 (by rfl),
   (claim_C5_user_metadata envAllOk st0 "e1" dExtruder dMachine optsAll
      (createExtruderStack envAllOk st0 "e1" dExtruder dMachine optsAll).1
      sExtruderAll).2 (by rfl)⟩

/-- C6: the claim (with the spec and the source docstring, which says the
`machine_definition` parameter is the machine definition to use for the user
container) requires a definition attached to the user-override container of
an extruder stack; evaluating the code shows the extruder user container is
built and attached with no definition at all (`definition = none`) — the
`machine_definition` argument is never used by the body. -/
theorem claim_C6_user_container_definition :
    (createExtruderStack envAllOk st0 "e1" dExtruder dMachine optsAll).2 =
      Except.ok sExtruderAll ∧
    sExtruderAll.userChanges = some (extruderUserContainer "e1") ∧
    (extruderUserContainer "e1").definition = none :=
  ⟨rfl, rfl, rfl⟩

/-- C7: the claim says the position warning fires if and only if the
position metadata entry of the extruder definition is absent; evaluating the
code on an extruder definition whose position entry is present with the
integer value 0 (a legitimate first-extruder position) shows the warning is
logged anyway — the source tests Python truthiness, not presence — while
the extruder stack is still built. -/
theorem claim_C7_position_warning :
    getMetaDataEntry dExtruderPosZero.metadata "position" MVal.vNone =
      MVal.vInt 0 ∧
    (createMachine envPosZero st0 "My Printer" "machine_a").1.log =
      [warnNoPosition "extruder_z"] ∧
    isOkSome (createMachine envPosZero st0 "My Printer" "machine_a").2 =
      true ∧
    countKind .extruderK
      (createMachine envPosZero st0 "My Printer" "machine_a").1.registry =
      1 :=
  ⟨rfl, rfl, rfl, rfl⟩

/-- C8: for every call to `createGlobalStack` or `createExtruderStack`, each
optional layer option that is absent from the kwargs causes no setter
invocation for that layer (the setter invocations recorded in the trace for
each layer are exactly the ids of the present options) and leaves that layer
of the stack unset, while every present option is applied to its layer. -/
theorem claim_C8_optional_layers (env : Env) (st : BuildState)
    (new_stack_id : String)
    (definition machine_definition : DefinitionContainer)
    (opts : StackOptions) (st' : BuildState) (s : Stack)
    (h : createGlobalStack env st new_stack_id definition opts =
          (st', .ok s) ∨
         createExtruderStack env st new_stack_id definition machine_definition
          opts = (st', .ok s)) :
    s.definitionChanges = opts.definition_changes ∧
    s.variant = opts.variant ∧ s.material = opts.material ∧
    s.quality = opts.quality ∧ s.qualityChanges = opts.quality_changes ∧
    dcSetIds st'.trace =
      dcSetIds st.trace ++ opts.definition_changes.toList ∧
    variantSetIds st'.trace =
      variantSetIds st.trace ++ opts.variant.toList ∧
    materialSetIds st'.trace =
      materialSetIds st.trace ++ opts.material.toList ∧
    qualitySetIds st'.trace =
      qualitySetIds st.trace ++ opts.quality.toList ∧
    qcSetIds st'.trace =
      qcSetIds st.trace ++ opts.quality_changes.toList := by
  rcases h with h | h
  · obtain ⟨hs, hst⟩ := createGlobalStack_ok _ _ _ _ _ _ _ h
    subst hst
    subst hs
    refine ⟨rfl, rfl, rfl, rfl, rfl, ?_, ?_, ?_, ?_, ?_⟩ <;>
      simp [dcSetIds_append, variantSetIds_append, materialSetIds_append,
        qualitySetIds_append, qcSetIds_append, dcSetIds_layerEvents,
        variantSetIds_layerEvents, materialSetIds_layerEvents,
        qualitySetIds_layerEvents, qcSetIds_layerEvents,
        dcSetIds, variantSetIds, materialSetIds, qualitySetIds, qcSetIds]
  · obtain ⟨hs, hst⟩ := createExtruderStack_ok _ _ _ _ _ _ _ _ h
    subst hst
    subst hs
    refine ⟨rfl, rfl, rfl, rfl, rfl, ?_, ?_, ?_, ?_, ?_⟩ <;>
      simp [dcSetIds_append, variantSetIds_append, materialSetIds_append,
        qualitySetIds_append, qcSetIds_append, dcSetIds_layerEvents,
        variantSetIds_layerEvents, materialSetIds_layerEvents,
        qualitySetIds_layerEvents, qcSetIds_layerEvents,
        dcSetIds_nextStackEvents, variantSetIds_nextStackEvents,
        materialSetIds_nextStackEvents, qualitySetIds_nextStackEvents,
        qcSetIds_nextStackEvents,
        dcSetIds, variantSetIds, materialSetIds, qualitySetIds, qcSetIds]

theorem claim_C8_optional_layers_witness :
    sGlobalEmpty.definitionChanges = optsEmpty.definition_changes ∧
    sGlobalEmpty.variant = optsEmpty.variant ∧
    sGlobalEmpty.material = optsEmpty.material ∧
    sGlobalEmpty.quality = optsEmpty.quality ∧
    sGlobalEmpty.qualityChanges = optsEmpty.quality_changes ∧
    dcSetIds (createGlobalStack envAllOk st0 "g1" dMachine optsEmpty).1.trace =
      dcSetIds st0.trace ++ optsEmpty.definition_changes.toList ∧
    variantSetIds
        (createGlobalStack envAllOk st0 "g1" dMachine optsEmpty).1.trace =
      variantSetIds st0.trace ++ optsEmpty.variant.toList ∧
    materialSetIds
        (createGlobalStack envAllOk st0 "g1" dMachine optsEmpty).1.trace =
      materialSetIds st0.trace ++ optsEmpty.material.toList ∧
    qualitySetIds
        (createGlobalStack envAllOk st0 "g1" dMachine optsEmpty).1.trace =
      qualitySetIds st0.trace ++ optsEmpty.quality.toList ∧
    qcSetIds (createGlobalStack envAllOk st0 "g1" dMachine optsEmpty).1.trace =
      qcSetIds st0.trace ++ optsEmpty.quality_changes.toList :=
  claim_C8_optional_layers envAllOk st0 "g1" dMachine dMachine optsEmpty
    (createGlobalStack envAllOk st0 "g1" dMachine optsEmpty).1 sGlobalEmpty
    (Or.inl (by rfl))

/-- C9: the user-override container created by either builder for stack id S
has identifier S followed by the literal suffix `_user`. -/
theorem claim_C9_user_container_id (env : Env) (st : BuildState)
    (new_stack_id : String)
    (definition machine_definition : DefinitionContainer)
    (opts : StackOptions) (st' : BuildState) (s : Stack)
    (h : createGlobalStack env st new_stack_id definition opts =
          (st', .ok s) ∨
         createExtruderStack env st new_stack_id definition machine_definition
          opts = (st', .ok s)) :
    s.userChanges.map (fun u => u.id) = some (new_stack_id ++ "_user") := by
  rcases h with h | h
  · obtain ⟨hs, hst⟩ := createGlobalStack_ok _ _ _ _ _ _ _ h
    subst hs
    rfl
  · obtain ⟨hs, hst⟩ := createExtruderStack_ok _ _ _ _ _ _ _ _ h
    subst hs
    rfl

theorem claim_C9_user_container_id_witness :
    sGlobalAll.userChanges.map (fun u => u.id) = some ("g1" ++ "_user") :=
  claim_C9_user_container_id envAllOk st0 "g1" dMachine dMachine optsAll
    (createGlobalStack envAllOk st0 "g1" dMachine optsAll).1 sGlobalAll
    (Or.inl (by rfl))

/-- C10: every successful `createExtruderStack` gives the new stack a
`position` metadata entry whose value is the `position` metadata entry of
the extruder definition; when the definition has no such entry the lookup
defaults to the None value, so the entry is still recorded on the stack,
with value `MVal.vNone`, rather than being omitted. -/
theorem claim_C10_position_metadata (env : Env) (st : BuildState)
    (new_stack_id : String)
    (definition machine_definition : DefinitionContainer)
    (opts : StackOptions) (st' : BuildState) (s : Stack)
    (h : createExtruderStack env st new_stack_id definition machine_definition
      opts = (st', .ok s)) :
    s.metadata =
      [("position", getMetaDataEntry definition.metadata "position"
        MVal.vNone)] ∧
    hasMetaKey s.metadata "position" = true := by
  obtain ⟨hs, hst⟩ := createExtruderStack_ok _ _ _ _ _ _ _ _ h
  subst hs
  exact ⟨rfl, rfl⟩

theorem claim_C10_position_metadata_witness :
    sExtruderNoPos.metadata =
      [("position", getMetaDataEntry dExtruderNoPos.metadata "position"
        MVal.vNone)] ∧
    hasMetaKey sExtruderNoPos.metadata "position" = true :=
  claim_C10_position_metadata envAllOk st0 "e1" dExtruderNoPos dMachine
    optsEmpty
    (createExtruderStack envAllOk st0 "e1" dExtruderNoPos dMachine optsEmpty).1
    sExtruderNoPos (by rfl)

end CuraStackBuilder
